import Mathlib

/-!
Verification of the cfd-cli ASCII fluid sloshing simulator (src/cfd.c).

The numerics are embedded over the rationals: the C program computes in
single-precision floating point, but every property checked here concerns
the algebraic structure of the update (and exact threshold comparisons far
from any representation boundary), so exact rational arithmetic is the
faithful shallow embedding of the formulas in the source.

Grids are embedded as total functions from row and column indices to cell
values; the C arrays only exist for indices r < HEIGHT, c < WIDTH, and all
theorems below quantify only over such in-bounds cells.  The scratch
buffers next_h and next_vel are part of the state, as in the source, so
that the buffer-swap discipline of simulation_step is visible.
-/

namespace CfdCli

/-- The global simulation parameters of cfd.c (G_DT, G_WAVE_SPEED_SQ,
G_DAMPING, G_INITIAL_WATER_LEVEL, G_INITIAL_TILT, G_SLEEP_MS). -/
structure SimParams where
  dt : ℚ
  waveSpeedSq : ℚ
  damping : ℚ
  initialLevel : ℚ
  initialTilt : ℚ
  sleepMs : ℤ
deriving DecidableEq, Repr

/-- Default parameter values from the top of cfd.c. -/
def defaultParams : SimParams :=
  { dt := 1/5, waveSpeedSq := 1/2, damping := 1/100,
    initialLevel := 1/2, initialTilt := 1/10, sleepMs := 50 }

/-- fmaxf(0, x) followed by fminf(1, x), as used in the source to clamp
heights into the unit interval. -/
def clamp01 (x : ℚ) : ℚ := min 1 (max 0 x)

/-- The five equally shaped fields of cfd.c: h, vel, next_h, next_vel and
the obstacle mask, over a fixed width-by-height domain.  Values at indices
with r >= height or c >= width are immaterial: the C arrays have no such
entries and no definition below reads them under an in-bounds guard. -/
structure Grid where
  width : Nat
  height : Nat
  h : Nat → Nat → ℚ
  vel : Nat → Nat → ℚ
  nextH : Nat → Nat → ℚ
  nextVel : Nat → Nat → ℚ
  obstacle : Nat → Nat → Bool

/-- The border test of initialize_simulation:
r == 0 || r == HEIGHT - 1 || c == 0 || c == WIDTH - 1. -/
def borderCell (width height r c : Nat) : Bool :=
  r == 0 || r == height - 1 || c == 0 || c == width - 1

/-- tilt_effect = G_INITIAL_TILT * ((c / (WIDTH - 1.0)) - 0.5) * 2.0 . -/
def tiltEffect (p : SimParams) (width : Nat) (c : Nat) : ℚ :=
  p.initialTilt * (((c : ℚ) / ((width : ℚ) - 1)) - 1/2) * 2

/-- The condition guarding the central disturbance:
fabsf(G_INITIAL_TILT) < 0.001 && HEIGHT > 2 && WIDTH > 2. -/
def disturbCond (p : SimParams) (width height : Nat) : Prop :=
  |p.initialTilt| < 1/1000 ∧ 2 < height ∧ 2 < width

instance (p : SimParams) (width height : Nat) :
    Decidable (disturbCond p width height) := by
  unfold disturbCond; infer_instance

/-- The height written by initialize_simulation at cell (r, c).  The source
first fills every cell (0 on the border walls, the clamped tilted level in
the interior) and then, when the disturbance condition holds and the center
cell (HEIGHT/2, WIDTH/2) is not an obstacle, overwrites that single cell
with min(1, level + 0.4); this per-cell function states the final value,
with the later write taking precedence.  At the moment of the overwrite the
obstacle mask is exactly the border mask, hence the borderCell test. -/
def initH (p : SimParams) (width height r c : Nat) : ℚ :=
  if disturbCond p width height ∧ r = height / 2 ∧ c = width / 2 ∧
      borderCell width height (height / 2) (width / 2) = false then
    min 1 (p.initialLevel + 2/5)
  else if borderCell width height r c then 0
  else clamp01 (p.initialLevel + tiltEffect p width c)

/-- initialize_simulation: border cells become obstacle walls with zero
height and velocity; interior cells get the clamped tilted level and zero
velocity; the scratch buffers keep their calloc zeros. -/
def initialize_simulation (p : SimParams) (width height : Nat) : Grid :=
  { width := width, height := height,
    h := fun r c => initH p width height r c,
    vel := fun _ _ => 0,
    nextH := fun _ _ => 0,
    nextVel := fun _ _ => 0,
    obstacle := fun r c => borderCell width height r c }

/-- The velocity computed by simulation_step for a non-obstacle cell:
neighbor heights with Neumann substitution, discrete Laplacian, force
update, then damping.  All reads are against the current buffers of g. -/
def stepVel (p : SimParams) (g : Grid) (r c : Nat) : ℚ :=
  (g.vel r c + (p.waveSpeedSq *
    ((if 0 < r ∧ g.obstacle (r - 1) c = false then g.h (r - 1) c else g.h r c) +
      (if r + 1 < g.height ∧ g.obstacle (r + 1) c = false then g.h (r + 1) c else g.h r c) +
      (if 0 < c ∧ g.obstacle r (c - 1) = false then g.h r (c - 1) else g.h r c) +
      (if c + 1 < g.width ∧ g.obstacle r (c + 1) = false then g.h r (c + 1) else g.h r c) -
      4 * g.h r c)) * p.dt) * (1 - p.damping * p.dt)

/-- The value simulation_step writes into next_vel at (r, c). -/
def cellNextVel (p : SimParams) (g : Grid) (r c : Nat) : ℚ :=
  if g.obstacle r c then 0 else stepVel p g r c

/-- The value simulation_step writes into next_h at (r, c): the new height
is h + v*dt with the freshly damped velocity, clamped into [0, 1]. -/
def cellNextH (p : SimParams) (g : Grid) (r c : Nat) : ℚ :=
  if g.obstacle r c then 0 else clamp01 (g.h r c + stepVel p g r c * p.dt)

/-- simulation_step: every in-bounds cell of both next buffers is written
(obstacle cells are forced to zero), then the current and next buffer
pairs are swapped.  Out-of-bounds entries of the next buffers, which do
not exist in the C arrays, are left as they were. -/
def simulation_step (p : SimParams) (g : Grid) : Grid :=
  { width := g.width, height := g.height,
    h := fun r c =>
      if r < g.height ∧ c < g.width then cellNextH p g r c else g.nextH r c,
    vel := fun r c =>
      if r < g.height ∧ c < g.width then cellNextVel p g r c else g.nextVel r c,
    nextH := g.h,
    nextVel := g.vel,
    obstacle := g.obstacle }

/-- n iterations of simulation_step. -/
def stepN (p : SimParams) : Nat → Grid → Grid
  | 0, g => g
  | n + 1, g => simulation_step p (stepN p n g)

/-- height_to_char: the height-to-glyph step function of cfd.c. -/
def height_to_char (x : ℚ) : Char :=
  if 4/5 < x then '@'
  else if 13/20 < x then '#'
  else if 1/2 < x then '*'
  else if 7/20 < x then '='
  else if 1/5 < x then '-'
  else if 1/20 < x then '.'
  else ' '

/-- Outcome of the argument-parsing loop at the top of main. -/
inductive ParseOutcome where
  | help
  | usageErr
  | ok (p : SimParams)
deriving DecidableEq, Repr

/-- The argument-parsing loop of main.  Flags are compared as exact
strings; the numeric conversions atof and atoi are abstracted as the
functions conv and convI, since the claims checked here do not depend on
how a particular string is turned into a number.  A flag with no following
argument, or an unrecognized token, aborts with the usage-error outcome;
a help flag aborts immediately with the help outcome. -/
def parseArgs (conv : String → ℚ) (convI : String → ℤ) :
    List String → SimParams → ParseOutcome
  | [], p => .ok p
  | a :: rest, p =>
    if a = "--dt" then
      match rest with
      | [] => .usageErr
      | v :: rest2 => parseArgs conv convI rest2 { p with dt := conv v }
    else if a = "--speed_sq" then
      match rest with
      | [] => .usageErr
      | v :: rest2 => parseArgs conv convI rest2 { p with waveSpeedSq := conv v }
    else if a = "--damping" then
      match rest with
      | [] => .usageErr
      | v :: rest2 => parseArgs conv convI rest2 { p with damping := conv v }
    else if a = "--level" then
      match rest with
      | [] => .usageErr
      | v :: rest2 => parseArgs conv convI rest2 { p with initialLevel := conv v }
    else if a = "--tilt" then
      match rest with
      | [] => .usageErr
      | v :: rest2 => parseArgs conv convI rest2 { p with initialTilt := conv v }
    else if a = "--sleep" then
      match rest with
      | [] => .usageErr
      | v :: rest2 => parseArgs conv convI rest2 { p with sleepMs := convI v }
    else if a = "-h" ∨ a = "--help" then .help
    else .usageErr

/-- The parameter-validation chain of main, in source order; returns the
diagnostic of the first failing check. -/
def validate (p : SimParams) : Option String :=
  if p.dt ≤ 0 then some "Error: dt must be > 0."
  else if p.waveSpeedSq ≤ 0 then some "Error: speed_sq must be > 0."
  else if p.damping < 0 then some "Error: damping must be >= 0.0."
  else if p.initialLevel < 0 ∨ 1 < p.initialLevel then some "Error: level must be 0.0-1.0."
  else if p.initialTilt < 0 ∨ 1 < p.initialTilt then some "Error: tilt must be 0.0-1.0."
  else if p.sleepMs < 0 then some "Error: sleep ms must be >= 0."
  else none

/-- How main terminates (or enters the simulation loop): help exits 0
after printing usage, a parse error exits 1 after printing usage, a
validation failure exits 1 with its diagnostic, and otherwise the
simulation runs forever; warned records whether the stability warning
(speed_sq * dt^2 > 0.5) was printed on the way in. -/
inductive MainOutcome where
  | exitHelp
  | exitUsage
  | exitValidation (msg : String)
  | run (p : SimParams) (warned : Bool)
deriving DecidableEq, Repr

/-- The decision structure of main before the simulation loop. -/
def mainOutcome (conv : String → ℚ) (convI : String → ℤ)
    (args : List String) : MainOutcome :=
  match parseArgs conv convI args defaultParams with
  | .help => .exitHelp
  | .usageErr => .exitUsage
  | .ok p =>
    match validate p with
    | some msg => .exitValidation msg
    | none => .run p (decide (1/2 < p.waveSpeedSq * p.dt * p.dt))

/-- The process exit status for each outcome; the run outcome never
returns (the simulation loop is infinite), hence none. -/
def exitCode : MainOutcome → Option Nat
  | .exitHelp => some 0
  | .exitUsage => some 1
  | .exitValidation _ => some 1
  | .run _ _ => none

/-- The terminal-size adjustment of main: if WIDTH < 10 or HEIGHT < 5,
each offending dimension is replaced by its fallback (20 or 10). -/
def adjustDomain (w h : ℤ) : ℤ × ℤ :=
  if w < 10 ∨ h < 5 then
    ((if w < 10 then 20 else w), (if h < 5 then 10 else h))
  else (w, h)

/-! ### Basic lemmas about the embedded operations -/

theorem clamp01_nonneg (x : ℚ) : 0 ≤ clamp01 x :=
  le_min zero_le_one (le_max_left 0 x)

theorem clamp01_le_one (x : ℚ) : clamp01 x ≤ 1 := min_le_left 1 _

theorem clamp01_eq_self (x : ℚ) (h0 : 0 ≤ x) (h1 : x ≤ 1) : clamp01 x = x := by
  unfold clamp01
  rw [max_eq_right h0, min_eq_right h1]

theorem step_width (p : SimParams) (g : Grid) :
    (simulation_step p g).width = g.width := rfl

theorem step_height (p : SimParams) (g : Grid) :
    (simulation_step p g).height = g.height := rfl

theorem step_obstacle (p : SimParams) (g : Grid) :
    (simulation_step p g).obstacle = g.obstacle := rfl

theorem stepN_width (p : SimParams) (n : Nat) (g : Grid) :
    (stepN p n g).width = g.width := by
  induction n with
  | zero => rfl
  | succ n ih => rw [stepN]; exact ih

theorem stepN_height (p : SimParams) (n : Nat) (g : Grid) :
    (stepN p n g).height = g.height := by
  induction n with
  | zero => rfl
  | succ n ih => rw [stepN]; exact ih

theorem stepN_obstacle (p : SimParams) (n : Nat) (g : Grid) :
    (stepN p n g).obstacle = g.obstacle := by
  induction n with
  | zero => rfl
  | succ n ih => rw [stepN]; exact ih

theorem step_h_inbounds (p : SimParams) (g : Grid) (r c : Nat)
    (hr : r < g.height) (hc : c < g.width) :
    (simulation_step p g).h r c = cellNextH p g r c := by
  simp [simulation_step, hr, hc]

theorem step_vel_inbounds (p : SimParams) (g : Grid) (r c : Nat)
    (hr : r < g.height) (hc : c < g.width) :
    (simulation_step p g).vel r c = cellNextVel p g r c := by
  simp [simulation_step, hr, hc]

theorem borderCell_eq_false (width height r c : Nat)
    (hr0 : 0 < r) (hr1 : r + 1 < height) (hc0 : 0 < c) (hc1 : c + 1 < width) :
    borderCell width height r c = false := by
  simp only [borderCell, Bool.or_eq_false_iff, beq_eq_false_iff_ne, ne_eq]
  omega

/-- A concrete 3-by-3 bordered grid with interior level 1/2, zero velocity
and nonzero scratch buffers, used to exercise the step at its center. -/
def demoGrid : Grid :=
  { width := 3, height := 3,
    h := fun r c => if borderCell 3 3 r c then 0 else 1/2,
    vel := fun _ _ => 0,
    nextH := fun _ _ => 7,
    nextVel := fun _ _ => 7,
    obstacle := fun r c => borderCell 3 3 r c }

/-! ### C7: the height-to-glyph mapping -/

/-- C7: the height-to-glyph mapping returns the glyph determined by the
cascade of strict thresholds 0.80, 0.65, 0.50, 0.35, 0.20, 0.05, and in
particular maps 0.9, 0.7, 0.55, 0.4, 0.25, 0.1, 0.0 to the seven glyphs
at, hash, star, equals, dash, dot and space. -/
theorem claim7_glyph_mapping :
    (∀ x : ℚ, height_to_char x =
      if 4/5 < x then '@'
      else if 13/20 < x then '#'
      else if 1/2 < x then '*'
      else if 7/20 < x then '='
      else if 1/5 < x then '-'
      else if 1/20 < x then '.'
      else ' ') ∧
    height_to_char (9/10) = '@' ∧ height_to_char (7/10) = '#' ∧
    height_to_char (11/20) = '*' ∧ height_to_char (2/5) = '=' ∧
    height_to_char (1/4) = '-' ∧ height_to_char (1/10) = '.' ∧
    height_to_char 0 = ' ' := by
  refine ⟨fun x => rfl, ?_, ?_, ?_, ?_, ?_, ?_, ?_⟩ <;> norm_num [height_to_char]

/-! ### C9: terminal-size fallback -/

/-- C9: a detected terminal size below 10 columns by 5 rows falls back to
a 20 by 10 simulation domain. -/
theorem claim9_size_fallback (w h : ℤ) (hw : w < 10) (hh : h < 5) :
    adjustDomain w h = (20, 10) := by
  unfold adjustDomain
  rw [if_pos (Or.inl hw), if_pos hw, if_pos hh]

/-- Witness for C9 at the concrete detected size 3 by 2. -/
theorem claim9_witness : adjustDomain 3 2 = (20, 10) :=
  claim9_size_fallback 3 2 (by decide) (by decide)

/-! ### C10: the step never observes stale scratch-buffer data -/

/-- C10: the post-swap current height and velocity of an in-bounds cell
after one simulation step do not depend on the prior contents of the
next-height and next-velocity scratch buffers. -/
theorem claim10_scratch_independence (p : SimParams) (g : Grid)
    (nh nv : Nat → Nat → ℚ) (r c : Nat)
    (hr : r < g.height) (hc : c < g.width) :
    (simulation_step p { g with nextH := nh, nextVel := nv }).h r c =
      (simulation_step p g).h r c ∧
    (simulation_step p { g with nextH := nh, nextVel := nv }).vel r c =
      (simulation_step p g).vel r c := by
  cases g with
  | mk w hgt H V NH NV O =>
    refine ⟨?_, ?_⟩ <;>
      · simp only [simulation_step]
        rw [if_pos ⟨hr, hc⟩, if_pos ⟨hr, hc⟩]
        rfl

/-- Witness for C10: the demo grid with zeroed scratch buffers steps to
the same center height as the demo grid itself. -/
theorem claim10_witness :
    (simulation_step defaultParams
        { demoGrid with nextH := fun _ _ => 0, nextVel := fun _ _ => 0 }).h 1 1 =
      (simulation_step defaultParams demoGrid).h 1 1 :=
  (claim10_scratch_independence defaultParams demoGrid
    (fun _ _ => 0) (fun _ _ => 0) 1 1 (by decide) (by decide)).1

/-! ### C1: the per-cell update formula of one simulation step -/

/-- C1: for a non-obstacle in-bounds cell, one step yields the velocity
(v + waveSpeedSq * L * dt) * (1 - damping * dt) and the height
clamp01(h + v_new * dt), where the Laplacian L substitutes the center
height for any neighbor that is out of range or an obstacle, all reads
being against the pre-step buffers. -/
theorem claim1_step_cell_formula (p : SimParams) (g : Grid) (r c : Nat)
    (hr : r < g.height) (hc : c < g.width) (hob : g.obstacle r c = false) :
    (simulation_step p g).vel r c =
      (g.vel r c + p.waveSpeedSq *
        ((if 0 < r ∧ g.obstacle (r - 1) c = false then g.h (r - 1) c else g.h r c) +
          (if r + 1 < g.height ∧ g.obstacle (r + 1) c = false then g.h (r + 1) c else g.h r c) +
          (if 0 < c ∧ g.obstacle r (c - 1) = false then g.h r (c - 1) else g.h r c) +
          (if c + 1 < g.width ∧ g.obstacle r (c + 1) = false then g.h r (c + 1) else g.h r c) -
          4 * g.h r c) * p.dt) * (1 - p.damping * p.dt) ∧
    (simulation_step p g).h r c =
      clamp01 (g.h r c + (simulation_step p g).vel r c * p.dt) := by
  have hv : (simulation_step p g).vel r c = stepVel p g r c := by
    rw [step_vel_inbounds p g r c hr hc]
    simp [cellNextVel, hob]
  have hh : (simulation_step p g).h r c =
      clamp01 (g.h r c + stepVel p g r c * p.dt) := by
    rw [step_h_inbounds p g r c hr hc]
    simp [cellNextH, hob]
  rw [hv, hh]
  exact ⟨rfl, rfl⟩

/-- Witness for C1 at the center cell of the demo grid. -/
theorem claim1_witness :
    (simulation_step defaultParams demoGrid).vel 1 1 =
      (demoGrid.vel 1 1 + defaultParams.waveSpeedSq *
        ((if 0 < 1 ∧ demoGrid.obstacle (1 - 1) 1 = false then demoGrid.h (1 - 1) 1 else demoGrid.h 1 1) +
          (if 1 + 1 < demoGrid.height ∧ demoGrid.obstacle (1 + 1) 1 = false then demoGrid.h (1 + 1) 1 else demoGrid.h 1 1) +
          (if 0 < 1 ∧ demoGrid.obstacle 1 (1 - 1) = false then demoGrid.h 1 (1 - 1) else demoGrid.h 1 1) +
          (if 1 + 1 < demoGrid.width ∧ demoGrid.obstacle 1 (1 + 1) = false then demoGrid.h 1 (1 + 1) else demoGrid.h 1 1) -
          4 * demoGrid.h 1 1) * defaultParams.dt) * (1 - defaultParams.damping * defaultParams.dt) ∧
    (simulation_step defaultParams demoGrid).h 1 1 =
      clamp01 (demoGrid.h 1 1 + (simulation_step defaultParams demoGrid).vel 1 1 * defaultParams.dt) :=
  claim1_step_cell_formula defaultParams demoGrid 1 1
    (by decide) (by decide) (by decide)

/-! ### Initialization lemmas, C5 and C6 -/

/-- The default parameters with the tilt set to zero, which routes
initialization through the central-disturbance branch. -/
def flatParams : SimParams := { defaultParams with initialTilt := 0 }

theorem init_h_interior (p : SimParams) (width height r c : Nat)
    (hr0 : 0 < r) (hr1 : r + 1 < height) (hc0 : 0 < c) (hc1 : c + 1 < width)
    (hnd : ¬(disturbCond p width height ∧ r = height / 2 ∧ c = width / 2)) :
    (initialize_simulation p width height).h r c =
      clamp01 (p.initialLevel + tiltEffect p width c) := by
  show initH p width height r c = _
  unfold initH
  rw [if_neg fun hx => hnd ⟨hx.1, hx.2.1, hx.2.2.1⟩,
    if_neg (by rw [borderCell_eq_false width height r c hr0 hr1 hc0 hc1]; exact Bool.false_ne_true)]

theorem init_vel (p : SimParams) (width height r c : Nat) :
    (initialize_simulation p width height).vel r c = 0 := rfl

theorem defaultTilt_abs : ¬(|defaultParams.initialTilt| < 1/1000) := by
  rw [show defaultParams.initialTilt = 1/10 from rfl, abs_of_nonneg (by norm_num)]
  norm_num

/-- C5 counterexample: with a zero tilt on a 5-by-5 domain, the claimed
formula fails at the interior cell (2, 2), which the central disturbance
overwrites with 0.9 while the formula gives 0.5. -/
theorem claim5_counterexample :
    (initialize_simulation flatParams 5 5).h 2 2 ≠
      clamp01 (flatParams.initialLevel +
        flatParams.initialTilt * (((2 : ℚ) / ((5 : ℚ) - 1)) - 1/2) * 2) := by
  norm_num [initialize_simulation, initH, disturbCond, borderCell, clamp01,
    tiltEffect, defaultParams, flatParams]

/-- C5 (amended): initialization gives every interior cell velocity 0 and
height clamp01(level + tilt * ((c / (width - 1)) - 0.5) * 2), except for
the single cell the central disturbance overwrites when the tilt is below
0.001 in magnitude; on a width-11 domain with tilt 0.1 and level 0.5 the
tilt effect is -0.1 at column 0 and +0.1 at column 10, and interior rows
get h within 0.02 of 0.4 at column 1 and of 0.6 at column 9. -/
theorem claim5_init_formula (p : SimParams) (width height r c : Nat)
    (hr0 : 0 < r) (hr1 : r + 1 < height) (hc0 : 0 < c) (hc1 : c + 1 < width)
    (hnd : ¬(disturbCond p width height ∧ r = height / 2 ∧ c = width / 2)) :
    ((initialize_simulation p width height).h r c =
      clamp01 (p.initialLevel +
        p.initialTilt * (((c : ℚ) / ((width : ℚ) - 1)) - 1/2) * 2) ∧
    (initialize_simulation p width height).vel r c = 0) ∧
    (tiltEffect defaultParams 11 0 = -(1/10) ∧
      tiltEffect defaultParams 11 10 = 1/10) ∧
    (∀ hgt r2, 0 < r2 → r2 + 1 < hgt →
      |(initialize_simulation defaultParams 11 hgt).h r2 1 - 2/5| ≤ 1/50 ∧
      |(initialize_simulation defaultParams 11 hgt).h r2 9 - 3/5| ≤ 1/50) := by
  refine ⟨⟨init_h_interior p width height r c hr0 hr1 hc0 hc1 hnd,
    init_vel p width height r c⟩, ⟨?_, ?_⟩, ?_⟩
  · norm_num [tiltEffect, defaultParams]
  · norm_num [tiltEffect, defaultParams]
  · intro hgt r2 h0 h1
    have hnd11 : ∀ c2, ¬(disturbCond defaultParams 11 hgt ∧
        r2 = hgt / 2 ∧ c2 = 11 / 2) :=
      fun _ hx => defaultTilt_abs hx.1.1
    constructor
    · rw [init_h_interior defaultParams 11 hgt r2 1 h0 h1 (by norm_num)
        (by norm_num) (hnd11 1), abs_le]
      constructor <;> norm_num [clamp01, tiltEffect, defaultParams]
    · rw [init_h_interior defaultParams 11 hgt r2 9 h0 h1 (by norm_num)
        (by norm_num) (hnd11 9), abs_le]
      constructor <;> norm_num [clamp01, tiltEffect, defaultParams]

/-- Witness for C5 (amended) at cell (1, 2) of a 4-by-4 domain with the
default parameters, whose tilt 0.1 disables the disturbance. -/
theorem claim5_witness :
    (initialize_simulation defaultParams 4 4).h 1 2 =
      clamp01 (defaultParams.initialLevel +
        defaultParams.initialTilt * (((2 : ℚ) / ((4 : ℚ) - 1)) - 1/2) * 2) :=
  (claim5_init_formula defaultParams 4 4 1 2 (by decide) (by decide) (by decide)
    (by decide) (fun hx => defaultTilt_abs hx.1.1)).1.1

/-- C6: when the tilt magnitude is below 0.001 and the domain exceeds 2 in
both dimensions, initialization sets the non-obstacle center cell
(height/2, width/2) to min(1, level + 0.4); concretely, on a 21-wide by
11-high flat domain at level 0.5 the cell (5, 10) gets 0.9 while every
other interior cell gets 0.5. -/
theorem claim6_central_disturbance (p : SimParams) (width height : Nat)
    (ht : |p.initialTilt| < 1/1000) (hh : 2 < height) (hw : 2 < width)
    (hob : (initialize_simulation p width height).obstacle
      (height / 2) (width / 2) = false) :
    (initialize_simulation p width height).h (height / 2) (width / 2) =
      min 1 (p.initialLevel + 2/5) ∧
    ((initialize_simulation flatParams 21 11).h 5 10 = 9/10 ∧
      ∀ r c, 0 < r → r + 1 < 11 → 0 < c → c + 1 < 21 → ¬(r = 5 ∧ c = 10) →
        (initialize_simulation flatParams 21 11).h r c = 1/2) := by
  refine ⟨?_, ?_, ?_⟩
  · show initH p width height (height / 2) (width / 2) = _
    unfold initH
    rw [if_pos ⟨⟨ht, hh, hw⟩, rfl, rfl, hob⟩]
  · norm_num [initialize_simulation, initH, disturbCond, borderCell,
      defaultParams, flatParams]
  · intro r c hr0 hr1 hc0 hc1 hne
    rw [init_h_interior flatParams 21 11 r c hr0 hr1 hc0 hc1
      (fun hx => hne ⟨hx.2.1, hx.2.2⟩)]
    norm_num [clamp01, tiltEffect, defaultParams, flatParams]

/-- Witness for C6 on the concrete 21-by-11 flat domain. -/
theorem claim6_witness :
    (initialize_simulation flatParams 21 11).h (11 / 2) (21 / 2) =
      min 1 (flatParams.initialLevel + 2/5) :=
  (claim6_central_disturbance flatParams 21 11
    (by norm_num [defaultParams, flatParams]) (by decide) (by decide)
    (by decide)).1

/-! ### C2: the clamping invariant -/

/-- C2: for every in-bounds non-obstacle cell, the current height lies in
[0, 1] after initialization (with a level in [0, 1]) and after every
number of simulation steps. -/
theorem claim2_clamping_invariant (p : SimParams)
    (hl0 : 0 ≤ p.initialLevel)
    (width height n r c : Nat) (hr : r < height) (hc : c < width)
    (hob : (stepN p n (initialize_simulation p width height)).obstacle r c = false) :
    0 ≤ (stepN p n (initialize_simulation p width height)).h r c ∧
      (stepN p n (initialize_simulation p width height)).h r c ≤ 1 := by
  cases n with
  | zero =>
    have hb : borderCell width height r c = false := hob
    show 0 ≤ initH p width height r c ∧ initH p width height r c ≤ 1
    unfold initH
    split
    · exact ⟨le_min zero_le_one (by linarith [le_max_left (0:ℚ)]), min_le_left _ _⟩
    · rw [if_neg (by rw [hb]; exact Bool.false_ne_true)]
      exact ⟨clamp01_nonneg _, clamp01_le_one _⟩
  | succ m =>
    have hob2 : (stepN p m (initialize_simulation p width height)).obstacle r c = false := hob
    have hrg : r < (stepN p m (initialize_simulation p width height)).height := by
      rw [stepN_height]; exact hr
    have hcg : c < (stepN p m (initialize_simulation p width height)).width := by
      rw [stepN_width]; exact hc
    show 0 ≤ (simulation_step p (stepN p m (initialize_simulation p width height))).h r c ∧
      (simulation_step p (stepN p m (initialize_simulation p width height))).h r c ≤ 1
    rw [step_h_inbounds p _ r c hrg hcg]
    unfold cellNextH
    rw [if_neg (by rw [hob2]; exact Bool.false_ne_true)]
    exact ⟨clamp01_nonneg _, clamp01_le_one _⟩

/-- Witness for C2 after one step on a 4-by-4 default domain. -/
theorem claim2_witness :
    0 ≤ (stepN defaultParams 1 (initialize_simulation defaultParams 4 4)).h 1 1 ∧
      (stepN defaultParams 1 (initialize_simulation defaultParams 4 4)).h 1 1 ≤ 1 :=
  claim2_clamping_invariant defaultParams (by norm_num [defaultParams])
    4 4 1 1 1 (by decide) (by decide) (by decide)

/-! ### C3: the boundary and obstacle invariant -/

/-- C3: after initialization and after every number of steps, the obstacle
mask is untouched, every in-bounds border cell is an obstacle, and every
in-bounds obstacle cell carries zero height and zero velocity. -/
theorem claim3_boundary_invariant (p : SimParams) (width height n : Nat) :
    (stepN p n (initialize_simulation p width height)).obstacle =
      (initialize_simulation p width height).obstacle ∧
    ∀ r, r < height → ∀ c, c < width →
      (borderCell width height r c = true →
        (stepN p n (initialize_simulation p width height)).obstacle r c = true) ∧
      ((stepN p n (initialize_simulation p width height)).obstacle r c = true →
        (stepN p n (initialize_simulation p width height)).h r c = 0 ∧
        (stepN p n (initialize_simulation p width height)).vel r c = 0) := by
  refine ⟨stepN_obstacle p n _, ?_⟩
  intro r hr c hc
  constructor
  · intro hb
    rw [stepN_obstacle]
    exact hb
  · intro hob
    cases n with
    | zero =>
      have hb : borderCell width height r c = true := hob
      refine ⟨?_, rfl⟩
      show initH p width height r c = 0
      unfold initH
      rw [if_neg, if_pos hb]
      intro hx
      obtain ⟨_, h1, h2, h3⟩ := hx
      rw [h1, h2, h3] at hb
      exact Bool.false_ne_true hb
    | succ m =>
      have hob2 : (stepN p m (initialize_simulation p width height)).obstacle r c = true := hob
      have hrg : r < (stepN p m (initialize_simulation p width height)).height := by
        rw [stepN_height]; exact hr
      have hcg : c < (stepN p m (initialize_simulation p width height)).width := by
        rw [stepN_width]; exact hc
      constructor
      · show (simulation_step p (stepN p m (initialize_simulation p width height))).h r c = 0
        rw [step_h_inbounds p _ r c hrg hcg]
        unfold cellNextH
        rw [if_pos hob2]
      · show (simulation_step p (stepN p m (initialize_simulation p width height))).vel r c = 0
        rw [step_vel_inbounds p _ r c hrg hcg]
        unfold cellNextVel
        rw [if_pos hob2]

/-- Witness for C3 at the border cell (0, 2) of a 4-by-4 default domain
after one step. -/
theorem claim3_witness :
    (stepN defaultParams 1 (initialize_simulation defaultParams 4 4)).obstacle 0 2 = true ∧
    (stepN defaultParams 1 (initialize_simulation defaultParams 4 4)).h 0 2 = 0 ∧
    (stepN defaultParams 1 (initialize_simulation defaultParams 4 4)).vel 0 2 = 0 := by
  have hmain := (claim3_boundary_invariant defaultParams 4 4 1).2 0 (by decide) 2 (by decide)
  have hob := hmain.1 (by decide)
  exact ⟨hob, hmain.2 hob⟩

/-! ### C4: a uniform interior state is a fixed point of the step -/

/-- The grid shape in the zero-Laplacian fixed-point claim: the border
obstacle layout, a uniform interior height k and zero velocity everywhere,
with arbitrary scratch buffers. -/
def UniformState (k : ℚ) (g : Grid) : Prop :=
  ∀ r, r < g.height → ∀ c, c < g.width →
    g.obstacle r c = borderCell g.width g.height r c ∧
    g.h r c = (if borderCell g.width g.height r c then 0 else k) ∧
    g.vel r c = 0

theorem uniform_neighbor (k : ℚ) (g : Grid) (hu : UniformState k g)
    (r c r2 c2 : Nat) (cond : Prop) [Decidable cond]
    (hin : cond → r2 < g.height ∧ c2 < g.width)
    (hk : g.h r c = k) :
    (if cond ∧ g.obstacle r2 c2 = false then g.h r2 c2 else g.h r c) = k := by
  split
  · next hx =>
    obtain ⟨hb1, hb2⟩ := hin hx.1
    obtain ⟨hO, hH, _⟩ := hu r2 hb1 c2 hb2
    rw [hO] at hx
    rw [hH, if_neg (by rw [hx.2]; exact Bool.false_ne_true)]
  · exact hk

theorem uniform_stepVel (p : SimParams) (k : ℚ) (g : Grid)
    (hu : UniformState k g) (r c : Nat) (hr2 : r < g.height) (hc2 : c < g.width)
    (hb : borderCell g.width g.height r c = false) :
    stepVel p g r c = 0 := by
  obtain ⟨hO, hH, hV⟩ := hu r hr2 c hc2
  have hknb : g.h r c = k := by
    rw [hH, if_neg (by rw [hb]; exact Bool.false_ne_true)]
  unfold stepVel
  rw [uniform_neighbor k g hu r c (r - 1) c (0 < r)
      (fun _ => ⟨Nat.lt_of_le_of_lt (Nat.sub_le r 1) hr2, hc2⟩) hknb,
    uniform_neighbor k g hu r c (r + 1) c (r + 1 < g.height)
      (fun hx => ⟨hx, hc2⟩) hknb,
    uniform_neighbor k g hu r c r (c - 1) (0 < c)
      (fun _ => ⟨hr2, Nat.lt_of_le_of_lt (Nat.sub_le c 1) hc2⟩) hknb,
    uniform_neighbor k g hu r c r (c + 1) (c + 1 < g.width)
      (fun hx => ⟨hr2, hx⟩) hknb,
    hknb, hV]
  ring

theorem uniform_step (p : SimParams) (k : ℚ) (hk0 : 0 ≤ k) (hk1 : k ≤ 1)
    (g : Grid) (hu : UniformState k g) :
    UniformState k (simulation_step p g) := by
  intro r hr c hc
  have hr2 : r < g.height := hr
  have hc2 : c < g.width := hc
  obtain ⟨hO, hH, hV⟩ := hu r hr2 c hc2
  refine ⟨hO, ?_, ?_⟩
  · show (simulation_step p g).h r c = if borderCell g.width g.height r c then 0 else k
    rw [step_h_inbounds p g r c hr2 hc2]
    unfold cellNextH
    by_cases hb : borderCell g.width g.height r c = true
    · rw [if_pos hb, if_pos (by rw [hO]; exact hb)]
    · rw [Bool.not_eq_true] at hb
      have hknb : g.h r c = k := by
        rw [hH, if_neg (by rw [hb]; exact Bool.false_ne_true)]
      rw [if_neg (by rw [hO, hb]; exact Bool.false_ne_true),
        if_neg (by rw [hb]; exact Bool.false_ne_true),
        uniform_stepVel p k g hu r c hr2 hc2 hb, hknb, zero_mul, add_zero,
        clamp01_eq_self k hk0 hk1]
  · show (simulation_step p g).vel r c = 0
    rw [step_vel_inbounds p g r c hr2 hc2]
    unfold cellNextVel
    by_cases hb : borderCell g.width g.height r c = true
    · rw [if_pos (by rw [hO]; exact hb)]
    · rw [Bool.not_eq_true] at hb
      rw [if_neg (by rw [hO, hb]; exact Bool.false_ne_true),
        uniform_stepVel p k g hu r c hr2 hc2 hb]

theorem stepN_uniform (p : SimParams) (k : ℚ) (hk0 : 0 ≤ k) (hk1 : k ≤ 1)
    (g : Grid) (hu : UniformState k g) (n : Nat) :
    UniformState k (stepN p n g) := by
  induction n with
  | zero => exact hu
  | succ m ih => exact uniform_step p k hk0 hk1 _ ih

/-- C4: a grid with the border obstacle layout, a uniform interior height
in [0, 1] and zero velocity is a fixed point of the simulation: any number
of steps leaves the in-bounds height and velocity fields unchanged. -/
theorem claim4_uniform_fixed_point (p : SimParams) (k : ℚ)
    (hk0 : 0 ≤ k) (hk1 : k ≤ 1) (g : Grid) (hu : UniformState k g)
    (n r c : Nat) (hr : r < g.height) (hc : c < g.width) :
    (stepN p n g).h r c = g.h r c ∧ (stepN p n g).vel r c = g.vel r c := by
  have hN := stepN_uniform p k hk0 hk1 g hu n
  have hrN : r < (stepN p n g).height := by rw [stepN_height]; exact hr
  have hcN : c < (stepN p n g).width := by rw [stepN_width]; exact hc
  obtain ⟨_, hH1, hV1⟩ := hN r hrN c hcN
  obtain ⟨_, hH2, hV2⟩ := hu r hr c hc
  rw [hH1, hV1, hH2, hV2, stepN_width, stepN_height]
  exact ⟨rfl, rfl⟩

/-- Witness for C4: two steps on the 3-by-3 demo grid (uniform interior
level 1/2, zero velocity) leave its center cell unchanged. -/
theorem claim4_witness :
    (stepN defaultParams 2 demoGrid).h 1 1 = demoGrid.h 1 1 ∧
    (stepN defaultParams 2 demoGrid).vel 1 1 = demoGrid.vel 1 1 :=
  claim4_uniform_fixed_point defaultParams (1/2) (by norm_num) (by norm_num)
    demoGrid (by intro r _ c _; exact ⟨rfl, rfl, rfl⟩) 2 1 1
    (by decide) (by decide)

/-! ### C8: the command-line contract of main -/

theorem validate_none_iff (p : SimParams) :
    validate p = none ↔
      0 < p.dt ∧ 0 < p.waveSpeedSq ∧ 0 ≤ p.damping ∧
      0 ≤ p.initialLevel ∧ p.initialLevel ≤ 1 ∧
      0 ≤ p.initialTilt ∧ p.initialTilt ≤ 1 ∧ 0 ≤ p.sleepMs := by
  unfold validate
  constructor
  · intro hv
    split_ifs at hv with h1 h2 h3 h4 h5 h6
    push_neg at h1 h2 h3 h4 h5 h6
    exact ⟨h1, h2, h3, h4.1, h4.2, h5.1, h5.2, h6⟩
  · rintro ⟨a1, a2, a3, a4, a5, a6, a7, a8⟩
    rw [if_neg (by linarith), if_neg (by linarith), if_neg (by linarith),
      if_neg (by push_neg; exact ⟨a4, a5⟩), if_neg (by push_neg; exact ⟨a6, a7⟩),
      if_neg (by omega)]

/-- C8: a help flag exits 0 after usage; an unknown option or a recognized
option with its value missing exits 1 after usage; an out-of-range
parameter yields a validation diagnostic and exit 1 before the simulation
starts; and a stability metric above 0.5 only sets the warning while the
simulation still runs. -/
theorem claim8_cli_contract (conv : String → ℚ) (convI : String → ℤ) :
    (∀ rest, mainOutcome conv convI ("-h" :: rest) = .exitHelp ∧
      mainOutcome conv convI ("--help" :: rest) = .exitHelp) ∧
    exitCode .exitHelp = some 0 ∧
    (∀ s rest, s ∉ (["--dt", "--speed_sq", "--damping", "--level", "--tilt",
        "--sleep", "-h", "--help"] : List String) →
      mainOutcome conv convI (s :: rest) = .exitUsage) ∧
    (∀ s, s ∈ (["--dt", "--speed_sq", "--damping", "--level", "--tilt",
        "--sleep"] : List String) →
      ∀ q, parseArgs conv convI [s] q = .usageErr) ∧
    (∀ args, parseArgs conv convI args defaultParams = .usageErr →
      mainOutcome conv convI args = .exitUsage) ∧
    exitCode .exitUsage = some 1 ∧
    (∀ args q, parseArgs conv convI args defaultParams = .ok q →
      ((q.dt ≤ 0 ∨ q.waveSpeedSq ≤ 0 ∨ q.damping < 0 ∨
        q.initialLevel < 0 ∨ 1 < q.initialLevel ∨
        q.initialTilt < 0 ∨ 1 < q.initialTilt ∨ q.sleepMs < 0) →
        ∃ msg, mainOutcome conv convI args = .exitValidation msg ∧
          exitCode (.exitValidation msg) = some 1) ∧
      (validate q = none → 1/2 < q.waveSpeedSq * q.dt * q.dt →
        mainOutcome conv convI args = .run q true)) := by
  refine ⟨?_, rfl, ?_, ?_, ?_, rfl, ?_⟩
  · intro rest
    constructor <;>
      · simp only [mainOutcome]
        rw [parseArgs.eq_def]
        simp
  · intro s rest hs
    simp only [List.mem_cons, List.mem_singleton, not_or] at hs
    obtain ⟨n1, n2, n3, n4, n5, n6, n7, n8, -⟩ := hs
    simp only [mainOutcome]
    rw [parseArgs.eq_def]
    simp [n1, n2, n3, n4, n5, n6, n7, n8]
  · intro s hs q
    simp only [List.mem_cons, List.mem_singleton] at hs
    rcases hs with rfl | rfl | rfl | rfl | rfl | rfl | hfalse
    · simp [parseArgs]
    · simp [parseArgs]
    · simp [parseArgs]
    · simp [parseArgs]
    · simp [parseArgs]
    · simp [parseArgs]
    · exact absurd hfalse (by simp)
  · intro args hp
    simp [mainOutcome, hp]
  · intro args q hq
    constructor
    · intro hbad
      have hv : validate q ≠ none := by
        intro hvnone
        rw [validate_none_iff] at hvnone
        obtain ⟨a1, a2, a3, a4, a5, a6, a7, a8⟩ := hvnone
        rcases hbad with h | h | h | h | h | h | h | h <;> linarith
      cases hvo : validate q with
      | none => exact absurd hvo hv
      | some msg => exact ⟨msg, by simp [mainOutcome, hq, hvo], rfl⟩
    · intro hvnone hmetric
      simp [mainOutcome, hq, hvnone]
      linarith

/-- Witness for C8 at concrete conversions and argument lists: a help
exit, an unknown-option exit, a missing-value parse error, and a
validation exit for a non-positive dt. -/
theorem claim8_witness :
    mainOutcome (fun _ => (0 : ℚ)) (fun _ => (0 : ℤ)) ["-h"] = .exitHelp ∧
    mainOutcome (fun _ => (0 : ℚ)) (fun _ => (0 : ℤ)) ["--bogus"] = .exitUsage ∧
    parseArgs (fun _ => (0 : ℚ)) (fun _ => (0 : ℤ)) ["--dt"] defaultParams = .usageErr ∧
    ∃ msg, mainOutcome (fun _ => (0 : ℚ)) (fun _ => (0 : ℤ)) ["--dt", "x"] =
      .exitValidation msg ∧ exitCode (.exitValidation msg) = some 1 := by
  refine ⟨((claim8_cli_contract _ _).1 []).1,
    (claim8_cli_contract _ _).2.2.1 "--bogus" [] (by simp),
    (claim8_cli_contract _ _).2.2.2.1 "--dt" (by simp) defaultParams,
    ((claim8_cli_contract _ _).2.2.2.2.2.2 ["--dt", "x"]
      { defaultParams with dt := 0 } (by simp [parseArgs])).1 (by norm_num)⟩

end CfdCli
